import Mathlib

/-!
# Verification of the Dispatcharr client-state slice

This file shallowly embeds the synchronization and caching layer of the
frontend: the progress normalizer and scan registry
(`src/frontend/src/store/library.jsx`), the media item cache
(media-library store), and the playback continuation planner
(`src/frontend/src/components/library/LibraryFormModal.jsx` /
`MediaDetailModal.jsx`), and proves or refutes the specified properties.

Modelling conventions:
- JS `null`/`undefined` are `Option.none`; JS falsiness for strings is
  `""`-or-absent, for numbers `0`-or-absent.
- Timestamps (`new Date().toISOString()` values) are abstract `Nat` ticks
  passed in as a `now` parameter; an ISO string is always truthy, so a
  present timestamp is `some t`.
- JS numbers used for milliseconds/percentages are modelled as exact
  rationals (`ℚ`); the literal `0.04` is modelled as `4/100`.
- `String.prototype.localeCompare` is modelled as code-point order and
  `toLowerCase` as ASCII lowercasing (the examples used stay in ASCII).
- `Array.prototype.sort` (stable, comparator-based) is modelled by a
  stable insertion sort over the boolean relation "comparator ≤ 0".
- JS `Map` (insertion-ordered) is modelled as an association list where
  setting an existing key updates it in place.
- Async store actions are modelled as run-functions taking the request
  outcome (`Except Unit response`) as an explicit argument; the fire-and-
  forget metadata refresh calls are returned as a list of requested ids.
-/

/-! ## JS-semantics helpers -/

/-- JS `a ?? b` (nullish coalescing) on optional values. -/
def jsCoalesce {α : Type} : Option α → Option α → Option α
  | some a, _ => some a
  | none, b => b

/-- JS `a || d` where `a` is an optional string and `""` is falsy. -/
def jsStrOr (a : Option String) (d : String) : String :=
  match a with
  | some s => if s = "" then d else s
  | none => d

/-- JS `a || d` on plain strings (`""` is falsy). -/
def jsStr2 (a d : String) : String :=
  if a = "" then d else a

/-- JS truthiness of an optional number: `0`, like `null`/`undefined`, is falsy.
`jsNumTruthy o = some n` exactly when `o` holds a truthy number `n`. -/
def jsNumTruthy (o : Option Int) : Option Int :=
  match o with
  | some n => if n = 0 then none else some n
  | none => none

/-! Association-list model of a JS `Map` / plain-object index.
`assocSet` updates an existing key in place (JS `Map.set` keeps the original
insertion position) and appends new keys. -/

def assocGet {α β : Type} [DecidableEq α] (m : List (α × β)) (k : α) : Option β :=
  (m.find? (fun p => p.1 = k)).map (fun p => p.2)

def assocSet {α β : Type} [DecidableEq α] (m : List (α × β)) (k : α) (v : β) :
    List (α × β) :=
  if m.any (fun p => p.1 = k) then
    m.map (fun p => if p.1 = k then (k, v) else p)
  else
    m ++ [(k, v)]

def assocErase {α β : Type} [DecidableEq α] (m : List (α × β)) (k : α) :
    List (α × β) :=
  m.filter (fun p => ¬ p.1 = k)

/-- Code points of a string (model of `localeCompare`'s input). -/
def strCodes (s : String) : List Nat :=
  s.data.map (fun c => c.toNat)

/-- ASCII model of `toLowerCase` on a single code point. -/
def lowerCode (n : Nat) : Nat :=
  if 65 ≤ n ∧ n ≤ 90 then n + 32 else n

/-- Code points of `s.toLowerCase()` (ASCII model). -/
def lowerCodes (s : String) : List Nat :=
  (strCodes s).map lowerCode

/-- Lexicographic `≤` on code-point lists: the model of
`a.localeCompare(b) <= 0`. -/
def codesLe : List Nat → List Nat → Bool
  | [], _ => true
  | _ :: _, [] => false
  | a :: as, b :: bs => if a < b then true else if b < a then false else codesLe as bs

/-- Insert `x` into `l` before the first element `y` with `le x y`;
the insertion step of a stable insertion sort. -/
def insertLe {α : Type} (le : α → α → Bool) (x : α) : List α → List α
  | [] => [x]
  | y :: ys => if le x y then x :: y :: ys else y :: insertLe le x ys

/-- Stable sort by a boolean "less-or-equal" relation: the model of JS
`Array.prototype.sort` with a consistent comparator (`le a b` standing for
`comparator(a, b) <= 0`). -/
def jsSortBy {α : Type} (le : α → α → Bool) : List α → List α
  | [] => []
  | x :: xs => insertLe le x (jsSortBy le xs)

theorem insertLe_perm {α : Type} (le : α → α → Bool) (x : α) (l : List α) :
    (insertLe le x l).Perm (x :: l) := by
  induction l with
  | nil => exact List.Perm.refl _
  | cons y ys ih =>
    simp only [insertLe]
    split
    · exact List.Perm.refl _
    · exact (List.Perm.cons y ih).trans (List.Perm.swap x y ys)

theorem jsSortBy_perm {α : Type} (le : α → α → Bool) (l : List α) :
    (jsSortBy le l).Perm l := by
  induction l with
  | nil => exact List.Perm.refl _
  | cons x xs ih => exact (insertLe_perm le x (jsSortBy le xs)).trans (ih.cons x)

theorem jsSortBy_length {α : Type} (le : α → α → Bool) (l : List α) :
    (jsSortBy le l).length = l.length :=
  (jsSortBy_perm le l).length_eq

theorem pairwise_insertLe {α : Type} {le : α → α → Bool}
    (htrans : ∀ a b c, le a b = true → le b c = true → le a c = true)
    (htot : ∀ a b, le a b = true ∨ le b a = true)
    (x : α) (l : List α) (hl : l.Pairwise (fun a b => le a b = true)) :
    (insertLe le x l).Pairwise (fun a b => le a b = true) := by
  induction l with
  | nil => simp [insertLe]
  | cons y ys ih =>
    rw [List.pairwise_cons] at hl
    obtain ⟨hy, hys⟩ := hl
    simp only [insertLe]
    split
    · rename_i hxy
      refine List.pairwise_cons.mpr ⟨?_, List.pairwise_cons.mpr ⟨hy, hys⟩⟩
      intro z hz
      rcases List.mem_cons.mp hz with hz | hz
      · exact hz ▸ hxy
      · exact htrans x y z hxy (hy z hz)
    · rename_i hxy
      have hyx : le y x = true := by
        rcases htot x y with h | h
        · exact absurd h hxy
        · exact h
      refine List.pairwise_cons.mpr ⟨?_, ih hys⟩
      intro z hz
      rcases List.mem_cons.mp ((insertLe_perm le x ys).mem_iff.mp hz) with hz2 | hz2
      · exact hz2 ▸ hyx
      · exact hy z hz2

theorem jsSortBy_pairwise {α : Type} {le : α → α → Bool}
    (htrans : ∀ a b c, le a b = true → le b c = true → le a c = true)
    (htot : ∀ a b, le a b = true ∨ le b a = true)
    (l : List α) :
    (jsSortBy le l).Pairwise (fun a b => le a b = true) := by
  induction l with
  | nil => simp [jsSortBy]
  | cons x xs ih => exact pairwise_insertLe htrans htot x _ ih

/-! ## Data model: media items and watch progress -/

/-- `WatchProgress` — position state for a single playable file
(used by `canResume` in `MediaDetailModal.jsx` / `LibraryFormModal.jsx`).
Milliseconds are modelled as exact rationals. -/
structure WatchProgress where
  id : Option Int
  position_ms : Option ℚ
  duration_ms : Option ℚ
deriving DecidableEq, Repr

/-- `MediaItem` — one cached item of the media-library store.  Only the
fields the modelled operations read are carried; `poster_url = ""` models a
missing/empty (falsy) poster URL, `id = 0` models a missing (falsy) id. -/
structure MediaItem where
  id : Int
  library : Option Int
  title : String
  sort_title : String
  poster_url : String
  metadata_last_synced_at : Option Nat
  watch_progress : Option WatchProgress
deriving DecidableEq, Repr

/-- Resume info returned by the resume query (`getResumeInfo`). -/
structure ResumeInfo where
  position_ms : ℚ
  duration_ms : ℚ
deriving DecidableEq, Repr

/-- The media-library store's filter state. -/
structure MediaFilters where
  type : String
  search : String
  status : String
  year : String
deriving DecidableEq, Repr

def initialFilters : MediaFilters :=
  { type := "all", search := "", status := "all", year := "" }

/-- State of the media-library store (`useMediaLibraryStore`). -/
structure MediaLibState where
  items : List MediaItem
  loading : Bool
  error : Option String
  total : Nat
  activeItem : Option MediaItem
  activeProgress : Option WatchProgress
  activeItemLoading : Bool
  resumePrompt : Option ResumeInfo
  selectedLibraryId : Option Int
  filters : MediaFilters
deriving DecidableEq, Repr

/-- The per-item metadata-refresh cooldown cache (`metadataRequestCache`):
item id to `Date.now()` of the last request. -/
def CooldownMap : Type := List (Int × Nat)

def METADATA_REFRESH_COOLDOWN_MS : Int := 60 * 1000

/-- `shouldRefreshMetadata`: an item lacking a poster URL or a last-synced
timestamp is eligible for a background metadata refresh. -/
def shouldRefreshMetadata (item : MediaItem) : Bool :=
  if item.id = 0 then false
  else if item.poster_url = "" ∨ item.metadata_last_synced_at = none then true
  else false

/-- `queueMetadataRefresh(items, { force })`: walks `items`; ineligible items
have their cooldown entry dropped; eligible items are requested unless the
per-id 60-second cooldown blocks them (bypassed by `force`), recording
`Date.now()` in the cooldown cache.  Returns the updated cooldown cache and
the ids for which `API.refreshMediaItemMetadata` was called. -/
def queueMetadataRefresh (items : List MediaItem) (force : Bool) (now : Nat)
    (cd : CooldownMap) : CooldownMap × List Int :=
  items.foldl
    (fun acc item =>
      if ¬ shouldRefreshMetadata item then
        (if item.id ≠ 0 then assocErase acc.1 item.id else acc.1, acc.2)
      else
        let lastRequested : Nat := (assocGet acc.1 item.id).getD 0
        if ¬ force ∧ (now : Int) - (lastRequested : Int) < METADATA_REFRESH_COOLDOWN_MS then
          acc
        else
          (assocSet acc.1 item.id now, acc.2 ++ [item.id]))
    (cd, [])

/-- The `.catch` handler of a metadata-refresh request: a failed request
clears that id's cooldown entry immediately. -/
def metadataRefreshFailed (cd : CooldownMap) (id : Int) : CooldownMap :=
  assocErase cd id

/-- Sort key of an item: `(a.sort_title || a.title || '').toLowerCase()`,
compared by `localeCompare` (modelled as code-point order). -/
def itemSortKey (a : MediaItem) : List Nat :=
  lowerCodes (jsStr2 a.sort_title (jsStr2 a.title ""))

def itemLe (a b : MediaItem) : Bool :=
  codesLe (itemSortKey a) (itemSortKey b)

/-- The case-insensitive sort-title ordering applied by `upsertItems`. -/
def sortItems (l : List MediaItem) : List MediaItem :=
  jsSortBy itemLe l

/-- The `byId` map built by `upsertItems` from the current items. -/
def itemsById (items : List MediaItem) : List (Int × MediaItem) :=
  items.foldl (fun m item => assocSet m item.id item) []

/-- JS `{ ...existing, ...incoming }`.  Every upsert input in this
development carries all modelled fields, so the spread equals `incoming`. -/
def mergeItem (existing : Option MediaItem) (incoming : MediaItem) : MediaItem :=
  match existing with
  | _ => incoming

/-- `upsertItems(itemsToUpsert)`: no-op on empty input or unset selected
library; otherwise indexes current items by id, merges each incoming item
(skipping items without a truthy id and items whose truthy library id
differs from the selected library id), then re-sorts and recounts. -/
def upsertItems (s : MediaLibState) (input : List MediaItem) : MediaLibState :=
  if input.isEmpty then s
  else
    match jsNumTruthy s.selectedLibraryId with
    | none => s
    | some sel =>
      let byId0 := itemsById s.items
      let byId :=
        input.foldl
          (fun m incoming =>
            if incoming.id = 0 then m
            else
              match jsNumTruthy incoming.library with
              | some lb =>
                if lb ≠ sel then m
                else assocSet m incoming.id (mergeItem (assocGet m incoming.id) incoming)
              | none => assocSet m incoming.id (mergeItem (assocGet m incoming.id) incoming))
          byId0
      let sorted := sortItems (byId.map (fun p => p.2))
      { s with items := sorted, total := sorted.length }

/-- `removeItems(ids)`: drops entries whose id is in `ids` and recounts. -/
def removeItems (s : MediaLibState) (ids : List Int) : MediaLibState :=
  let remaining := s.items.filter (fun item => ¬ ids.contains item.id)
  { s with items := remaining, total := remaining.length }

/-- A list response envelope: `{ results, count }`.  A backend reply that is
a bare array is the `count := none` case. -/
structure ItemsResponse where
  results : List MediaItem
  count : Option Nat
deriving DecidableEq, Repr

/-- `fetchItems(libraryId)` run to completion with the request outcome given
explicitly.  A falsy `libraryId` clears the cache without touching flags;
otherwise loading is set, and on success the items are replaced by the
response results (as received), `total` is set to `response.count ||
results.length || 0`, and the results are queued for metadata refresh; on
failure the prior items are kept and the error flag is set.  Returns the new
state, the cooldown cache, and the refresh requests issued. -/
def fetchItemsRun (s : MediaLibState) (libraryId : Option Int)
    (outcome : Except Unit ItemsResponse) (now : Nat) (cd : CooldownMap) :
    MediaLibState × CooldownMap × List Int :=
  match jsNumTruthy libraryId with
  | none => ({ s with items := [], total := 0 }, cd, [])
  | some _ =>
    let s1 := { s with loading := true, error := none }
    match outcome with
    | Except.ok resp =>
      let results := resp.results
      let total : Nat :=
        match resp.count with
        | some c => if c ≠ 0 then c else results.length
        | none => results.length
      let s2 := { s1 with items := results, total := total, loading := false }
      let q := queueMetadataRefresh results false now cd
      (s2, q.1, q.2)
    | Except.error _ =>
      ({ s1 with error := some "Failed to load media items", loading := false }, cd, [])

/-- `openItem(id)` run to completion.  It first sets the detail-loading flag
and clears `resumePrompt` and `activeProgress`; on success it stores the
fetched item as active, extracts its progress, forwards the item into
`upsertItems`, and queues a forced metadata refresh; on failure it only
clears the loading flag and propagates the rejection. -/
def openItemRun (s : MediaLibState) (outcome : Except Unit MediaItem)
    (now : Nat) (cd : CooldownMap) :
    MediaLibState × CooldownMap × List Int × Except Unit MediaItem :=
  let s1 := { s with activeItemLoading := true, resumePrompt := none,
                     activeProgress := none }
  match outcome with
  | Except.ok resp =>
    let progress := resp.watch_progress
    let s2 := { s1 with activeItem := some resp, activeItemLoading := false,
                        activeProgress := progress }
    let s3 := upsertItems s2 [resp]
    let q := queueMetadataRefresh [resp] true now cd
    (s3, q.1, q.2, Except.ok resp)
  | Except.error e =>
    ({ s1 with activeItemLoading := false }, cd, [], Except.error e)

/-- `upsertItems` issues no network calls: its body (unlike `fetchItems` and
`openItem`) never invokes `queueMetadataRefresh`, so the cooldown cache is
untouched and no metadata-refresh request is made.  This wrapper exposes the
same effect signature as the run-functions to make that explicit. -/
def upsertItemsRun (s : MediaLibState) (input : List MediaItem)
    (cd : CooldownMap) : MediaLibState × CooldownMap × List Int :=
  (upsertItems s input, cd, [])

/-! ## Data model: scan jobs (`src/frontend/src/store/library.jsx`) -/

/-- A stored scan-job entry.  Ids are compared through `String(...)` in the
source, so they are modelled as strings; counters are optional integers
(`null` for unknown); timestamps are optional abstract ticks. -/
structure ScanEntry where
  id : String
  library : Option Int
  library_name : String
  status : String
  summary : String
  matched_items : Option Int
  unmatched_files : Option Int
  total_files : Option Int
  new_files : Option Int
  updated_files : Option Int
  removed_files : Option Int
  processed : Option Int
  processed_files : Option Int
  created_at : Option Nat
  finished_at : Option Nat
  updated_at : Option Nat
deriving DecidableEq, Repr

/-- `normalizeScanEntry`: fills a missing processed counter
(`processed_files ?? processed`, defaulting to `total_files` for a completed
scan with a known total, else `0`) and mirrors it into both the canonical
and the alias field. -/
def normalizeScanEntry (scan : ScanEntry) : ScanEntry :=
  let processed0 := jsCoalesce scan.processed_files scan.processed
  let processed1 :=
    if processed0 = none ∧ scan.status = "completed" ∧ scan.total_files ≠ none then
      scan.total_files
    else processed0
  let p : Int := processed1.getD 0
  { scan with processed := some p, processed_files := some p }

/-- A push event on the live channel (`applyScanUpdate`'s argument). -/
structure ScanEvent where
  scan_id : Option String
  library_id : Option Int
  library_name : Option String
  status : Option String
  summary : Option String
  message : Option String
  matched : Option Int
  unmatched : Option Int
  total : Option Int
  files : Option Int
  new_files : Option Int
  updated_files : Option Int
  removed_files : Option Int
  processed_files : Option Int
  processed : Option Int
  media_item : Option MediaItem
deriving DecidableEq, Repr

/-- The `updatedEntry` object literal built inside `applyScanUpdate`'s
`updateList`, from the event, the job id, the current time and the existing
entry (`items[index]`, `none` when the job is unseen).  The literal assigns
every modelled field, so the later `{ ...items[index], ...updatedEntry }`
spread equals this record. -/
def updatedScanEntry (ev : ScanEvent) (sid : String) (now : Nat)
    (prior : Option ScanEntry) : ScanEntry :=
  let processedValue : Int :=
    (jsCoalesce ev.processed_files
      (jsCoalesce ev.processed
        (jsCoalesce (prior.bind (fun p => p.processed_files))
          (prior.bind (fun p => p.processed))))).getD 0
  { id := sid
    library := jsNumTruthy ev.library_id
    library_name := jsStrOr ev.library_name ""
    status := jsStrOr ev.status "running"
    summary :=
      jsStrOr ev.summary
        (jsStrOr ev.message (jsStrOr (prior.map (fun p => p.summary)) ""))
    matched_items := jsCoalesce ev.matched (prior.bind (fun p => p.matched_items))
    unmatched_files := jsCoalesce ev.unmatched (prior.bind (fun p => p.unmatched_files))
    total_files :=
      jsCoalesce ev.total (jsCoalesce ev.files (prior.bind (fun p => p.total_files)))
    new_files := jsCoalesce ev.new_files (prior.bind (fun p => p.new_files))
    updated_files := jsCoalesce ev.updated_files (prior.bind (fun p => p.updated_files))
    removed_files := jsCoalesce ev.removed_files (prior.bind (fun p => p.removed_files))
    processed := some processedValue
    processed_files := some processedValue
    created_at := some ((prior.bind (fun p => p.created_at)).getD now)
    finished_at :=
      if ev.status = some "completed" then some now
      else prior.bind (fun p => p.finished_at)
    updated_at := some now }

/-- `applyScanUpdate`'s inner `updateList`: locate the entry with the event's
job id; merge the event into it (or synthesize a new entry, prepended), and
run the result through `normalizeScanEntry` before storing. -/
def updateList (ev : ScanEvent) (sid : String) (now : Nat)
    (list : List ScanEntry) : List ScanEntry :=
  match list.findIdx? (fun scan => scan.id = sid) with
  | some i =>
    list.set i (normalizeScanEntry (updatedScanEntry ev sid now (list.get? i)))
  | none => normalizeScanEntry (updatedScanEntry ev sid now none) :: list

/-- State of the library store (`useLibraryStore`); the scan buckets are
keyed by the string form of the library id, or `"all"`. -/
structure LibraryState where
  loading : Bool
  error : Option String
  scans : List (String × List ScanEntry)
  scansLoading : Bool
deriving DecidableEq, Repr

/-- The bucket key `libraryId || 'all'` (object keys are strings in JS). -/
def scanKey (libraryId : Option Int) : String :=
  match jsNumTruthy libraryId with
  | some l => toString l
  | none => "all"

/-- `fetchScans(libraryId)` run to completion: sets the loading flag, and on
success replaces the bucket for `libraryId || 'all'` with the normalized
payload; on failure it only clears the loading flag (the prior buckets and
the error flag are untouched). -/
def fetchScansRun (st : LibraryState) (libraryId : Option Int)
    (outcome : Except Unit (List ScanEntry)) : LibraryState :=
  let st1 := { st with scansLoading := true }
  match outcome with
  | Except.ok payload =>
    { st1 with
      scans := assocSet st1.scans (scanKey libraryId) (payload.map normalizeScanEntry)
      scansLoading := false }
  | Except.error _ => { st1 with scansLoading := false }

/-- `applyScanUpdate(event)`: drop events without a truthy `scan_id`;
forward an embedded `media_item` to the media-library store's `upsertItems`;
then merge the event into the event's library bucket and the `"all"`
bucket via `updateList`. -/
def applyScanUpdate (st : LibraryState) (ms : MediaLibState) (ev : ScanEvent)
    (now : Nat) : LibraryState × MediaLibState :=
  match ev.scan_id with
  | none => (st, ms)
  | some sid =>
    if sid = "" then (st, ms)
    else
      let ms1 :=
        match ev.media_item with
        | some item => upsertItems ms [item]
        | none => ms
      let keys : List String :=
        match jsNumTruthy ev.library_id with
        | some l => [toString l, "all"]
        | none => ["all"]
      let scans1 :=
        keys.foldl
          (fun m k => assocSet m k (updateList ev sid now ((assocGet m k).getD [])))
          st.scans
      ({ st with scans := scans1 }, ms1)

/-! ## Playback continuation planner -/

/-- An episode as consumed by `orderedEpisodes` in `LibraryFormModal.jsx`. -/
structure Episode where
  id : Int
  season_number : Option Int
  episode_number : Option Int
  sort_title : String
deriving DecidableEq, Repr

/-- The episode comparator: season ascending (`?? 0`), then episode
ascending (`?? 0`), then `(a.sort_title || '').localeCompare(b.sort_title
|| '')` — `episodeLe a b` models `comparator(a, b) <= 0`. -/
def episodeLe (a b : Episode) : Bool :=
  if a.season_number.getD 0 < b.season_number.getD 0 then true
  else if b.season_number.getD 0 < a.season_number.getD 0 then false
  else if a.episode_number.getD 0 < b.episode_number.getD 0 then true
  else if b.episode_number.getD 0 < a.episode_number.getD 0 then false
  else codesLe (strCodes (jsStr2 a.sort_title "")) (strCodes (jsStr2 b.sort_title ""))

/-- `orderedEpisodes`: empty input gives `[]`; otherwise a (stable) sort of
a copy of the episode list by `episodeLe`. -/
def orderedEpisodes (episodes : List Episode) : List Episode :=
  if episodes.isEmpty then [] else jsSortBy episodeLe episodes

/-- `canResume` (identical in `MediaDetailModal.jsx` and
`LibraryFormModal.jsx`): false when there is no progress record or its
position or duration is falsy; otherwise true exactly when the remaining
duration exceeds 4% of the duration. -/
def canResume (activeProgress : Option WatchProgress) : Bool :=
  match activeProgress with
  | none => false
  | some p =>
    match p.position_ms, p.duration_ms with
    | some pos, some dur =>
      if pos = 0 ∨ dur = 0 then false
      else decide (dur - pos > dur * (4 / 100))
    | some _, none => false
    | none, _ => false

/-- The "resumable" predicate as the spec words it (for comparison with
`canResume`): duration known and positive, and duration minus position
exceeds 4% of duration. -/
def specResumable (activeProgress : Option WatchProgress) : Bool :=
  match activeProgress with
  | none => false
  | some p =>
    match p.duration_ms with
    | some dur =>
      decide (0 < dur) && decide (dur - (p.position_ms.getD 0) > dur * (4 / 100))
    | none => false

/-! ## Supporting lemmas -/

theorem normalizeScanEntry_status (s : ScanEntry) :
    (normalizeScanEntry s).status = s.status := rfl

theorem normalizeScanEntry_finished_at (s : ScanEntry) :
    (normalizeScanEntry s).finished_at = s.finished_at := rfl

theorem normalizeScanEntry_new_files (s : ScanEntry) :
    (normalizeScanEntry s).new_files = s.new_files := rfl

theorem normalizeScanEntry_processed_of_processed_files (s : ScanEntry) (p : Int)
    (hp : s.processed_files = some p) :
    (normalizeScanEntry s).processed = some p ∧
      (normalizeScanEntry s).processed_files = some p := by
  simp [normalizeScanEntry, hp, jsCoalesce]

/-- The merged entry stored by `updateList` when the job id is found at
index `i`. -/
theorem updateList_get_found (ev : ScanEvent) (sid : String) (now : Nat)
    (list : List ScanEntry) (i : Nat) (e : ScanEntry)
    (hfind : list.findIdx? (fun scan => scan.id = sid) = some i)
    (hget : list.get? i = some e) :
    (updateList ev sid now list).get? i
      = some (normalizeScanEntry (updatedScanEntry ev sid now (some e))) := by
  unfold updateList
  rw [hfind]
  simp only [hget]
  rw [List.get?_set_eq, hget]
  rfl

theorem assocGet_assocSet_self {α β : Type} [DecidableEq α]
    (m : List (α × β)) (k : α) (v : β) :
    assocGet (assocSet m k v) k = some v := by
  induction m with
  | nil => simp [assocSet, assocGet]
  | cons p m ih =>
    by_cases hp : p.1 = k
    · simp [assocSet, assocGet, hp]
    · have hany : (p :: m).any (fun q => q.1 = k) = m.any (fun q => q.1 = k) := by
        simp [List.any_cons, hp]
      by_cases hm : m.any (fun q => q.1 = k)
      · have ihm : assocGet (m.map (fun q => if q.1 = k then (k, v) else q)) k = some v := by
          have := ih
          rwa [assocSet, if_pos hm] at this
        rw [assocSet, if_pos (by rw [hany]; exact hm)]
        simpa [assocGet, List.find?, hp] using ihm
      · have ihm : assocGet (m ++ [(k, v)]) k = some v := by
          have := ih
          rwa [assocSet, if_neg (by simpa using hm)] at this
        rw [assocSet, if_neg (by rw [hany]; simpa using hm)]
        simpa [assocGet, List.find?, hp] using ihm

/-! ## Claim C2 — the progress normalizer and the clamp invariant -/

/-- A raw scan record with an over-total processed counter, as a fetch or
event may deliver. -/
def c2scan : ScanEntry :=
  { id := "9", library := none, library_name := "", status := "running",
    summary := "", matched_items := none, unmatched_files := none,
    total_files := some 100, new_files := none, updated_files := none,
    removed_files := none, processed := none, processed_files := some 150,
    created_at := none, finished_at := none, updated_at := none }

/-- C2 counterexample: `normalizeScanEntry` performs no clamping — a record
with `total_files = 100` and `processed_files = 150` normalizes to
`processed = 150 > total`, so the claimed invariant `processed ≤ total`
(for positive total) fails. -/
theorem C2_counterexample :
    (normalizeScanEntry c2scan).total_files = some 100 ∧
    (normalizeScanEntry c2scan).processed = some 150 ∧
    ¬ ((150 : Int) ≤ 100) := by
  refine ⟨by decide, by decide, by decide⟩

/-- C2 (amended): the normalizer never clamps.  A supplied processed counter
passes through unchanged (even when negative or above the total) and is
mirrored into both the canonical and the alias field; when both counters are
absent it defaults to the total for a completed scan with a known total, and
to `0` otherwise. -/
theorem C2_normalize_passthrough :
    (∀ (scan : ScanEntry) (p : Int), scan.processed_files = some p →
      (normalizeScanEntry scan).processed = some p ∧
        (normalizeScanEntry scan).processed_files = some p) ∧
    (∀ (scan : ScanEntry) (t : Int), scan.processed_files = none →
      scan.processed = none → scan.status = "completed" →
      scan.total_files = some t →
      (normalizeScanEntry scan).processed = some t) ∧
    (∀ scan : ScanEntry, scan.processed_files = none → scan.processed = none →
      scan.status ≠ "completed" →
      (normalizeScanEntry scan).processed = some 0) := by
  refine ⟨?_, ?_, ?_⟩
  · intro scan p hp
    exact normalizeScanEntry_processed_of_processed_files scan p hp
  · intro scan t hpf hp hst ht
    simp [normalizeScanEntry, hpf, hp, hst, ht, jsCoalesce]
  · intro scan hpf hp hst
    simp [normalizeScanEntry, hpf, hp, hst, jsCoalesce]

/-- Witness for C2: the over-total counter 150 passes through unchanged. -/
theorem C2_normalize_passthrough_witness :
    (normalizeScanEntry c2scan).processed = some 150 ∧
      (normalizeScanEntry c2scan).processed_files = some 150 :=
  C2_normalize_passthrough.1 c2scan 150 (by decide)

/-! ## Claim C1 — `applyScanUpdate`'s merge policy -/

/-- The stored job of the spec's merge example:
`{id: 1, total: 100, processed: 40, new_files: 3}`. -/
def c1exStored : ScanEntry :=
  { id := "1", library := some 1, library_name := "", status := "running",
    summary := "", matched_items := none, unmatched_files := none,
    total_files := some 100, new_files := some 3, updated_files := none,
    removed_files := none, processed := some 40, processed_files := some 40,
    created_at := some 10, finished_at := none, updated_at := some 10 }

/-- The event of the spec's merge example:
`{scan_id: 1, status: "running", processed_files: 55}`. -/
def c1exEvent : ScanEvent :=
  { scan_id := some "1", library_id := none, library_name := none,
    status := some "running", summary := none, message := none,
    matched := none, unmatched := none, total := none, files := none,
    new_files := none, updated_files := none, removed_files := none,
    processed_files := some 55, processed := none, media_item := none }

/-- A stored job whose scan has completed. -/
def c1completedStored : ScanEntry :=
  { c1exStored with
    status := "completed",
    finished_at := some 20 }

/-- An event that omits `status` (carries only a processed counter). -/
def c1noStatusEvent : ScanEvent :=
  { c1exEvent with
    status := none }

/-- C1 counterexample: the claim says a field the event omits — explicitly
including `status` — retains its prior stored value.  But merging an event
without a `status` into a job stored as `"completed"` rewrites the status to
the default `"running"`. -/
theorem C1_counterexample :
    c1completedStored.status = "completed" ∧
    c1noStatusEvent.status = none ∧
    ((updateList c1noStatusEvent "1" 500 [c1completedStored]).get? 0).map
        (fun x => x.status) = some "running" ∧
    ("running" : String) ≠ "completed" := by
  refine ⟨by decide, by decide, by decide, by decide⟩

/-- C1 (amended): when an event reaches a stored job entry, the counter
fields (`matched/unmatched/total/new/updated/removed/processed`) and the
summary follow event-wins-when-present (an omitted field keeps the stored
value), but `status` is NOT retained when omitted — it defaults to
`"running"` — and `library` is taken from the event alone (null when
absent).  The spec's concrete example still holds: merging
`{scan_id: 1, status: "running", processed_files: 55}` into
`{id: 1, total: 100, processed: 40, new_files: 3}` yields total 100,
processed 55, new_files 3, status "running". -/
theorem C1_merge_policy (list : List ScanEntry) (ev : ScanEvent) (sid : String)
    (now : Nat) (i : Nat) (e : ScanEntry)
    (hfind : list.findIdx? (fun scan => scan.id = sid) = some i)
    (hget : list.get? i = some e) :
    let r := normalizeScanEntry (updatedScanEntry ev sid now (some e))
    ((updateList ev sid now list).get? i = some r) ∧
    (∀ v, ev.new_files = some v → r.new_files = some v) ∧
    (ev.new_files = none → r.new_files = e.new_files) ∧
    (∀ v, ev.updated_files = some v → r.updated_files = some v) ∧
    (ev.updated_files = none → r.updated_files = e.updated_files) ∧
    (∀ v, ev.removed_files = some v → r.removed_files = some v) ∧
    (ev.removed_files = none → r.removed_files = e.removed_files) ∧
    (∀ v, ev.matched = some v → r.matched_items = some v) ∧
    (ev.matched = none → r.matched_items = e.matched_items) ∧
    (∀ v, ev.unmatched = some v → r.unmatched_files = some v) ∧
    (ev.unmatched = none → r.unmatched_files = e.unmatched_files) ∧
    (∀ v, ev.total = some v → r.total_files = some v) ∧
    (ev.total = none → ev.files = none → r.total_files = e.total_files) ∧
    (∀ v, ev.processed_files = some v →
      r.processed = some v ∧ r.processed_files = some v) ∧
    (ev.processed_files = none → ev.processed = none →
      ∀ q, e.processed_files = some q → r.processed = some q) ∧
    (ev.summary = none → ev.message = none → e.summary ≠ "" →
      r.summary = e.summary) ∧
    (∀ st, ev.status = some st → st ≠ "" → r.status = st) ∧
    (ev.status = none → r.status = "running") ∧
    (ev.library_id = none → r.library = none) ∧
    (((updateList c1exEvent "1" 77 [c1exStored]).get? 0).map
        (fun x => (x.total_files, x.processed, x.new_files, x.status))
      = some (some 100, some 55, some 3, "running")) := by
  intro r
  refine ⟨updateList_get_found ev sid now list i e hfind hget, ?_, ?_, ?_, ?_, ?_,
    ?_, ?_, ?_, ?_, ?_, ?_, ?_, ?_, ?_, ?_, ?_, ?_, ?_, by decide⟩
  · intro v hv
    simp [r, normalizeScanEntry, updatedScanEntry, jsCoalesce, hv]
  · intro hv
    simp [r, normalizeScanEntry, updatedScanEntry, jsCoalesce, hv]
  · intro v hv
    simp [r, normalizeScanEntry, updatedScanEntry, jsCoalesce, hv]
  · intro hv
    simp [r, normalizeScanEntry, updatedScanEntry, jsCoalesce, hv]
  · intro v hv
    simp [r, normalizeScanEntry, updatedScanEntry, jsCoalesce, hv]
  · intro hv
    simp [r, normalizeScanEntry, updatedScanEntry, jsCoalesce, hv]
  · intro v hv
    simp [r, normalizeScanEntry, updatedScanEntry, jsCoalesce, hv]
  · intro hv
    simp [r, normalizeScanEntry, updatedScanEntry, jsCoalesce, hv]
  · intro v hv
    simp [r, normalizeScanEntry, updatedScanEntry, jsCoalesce, hv]
  · intro hv
    simp [r, normalizeScanEntry, updatedScanEntry, jsCoalesce, hv]
  · intro v hv
    simp [r, normalizeScanEntry, updatedScanEntry, jsCoalesce, hv]
  · intro h1 h2
    simp [r, normalizeScanEntry, updatedScanEntry, jsCoalesce, h1, h2]
  · intro v hv
    constructor
    · simp [r, normalizeScanEntry, updatedScanEntry, jsCoalesce, hv]
    · simp [r, normalizeScanEntry, updatedScanEntry, jsCoalesce, hv]
  · intro h1 h2 q hq
    simp [r, normalizeScanEntry, updatedScanEntry, jsCoalesce, h1, h2, hq]
  · intro h1 h2 h3
    simp [r, normalizeScanEntry, updatedScanEntry, jsStrOr, h1, h2, h3]
  · intro st hst hne
    simp [r, normalizeScanEntry, updatedScanEntry, jsStrOr, hst, hne]
  · intro h
    simp [r, normalizeScanEntry, updatedScanEntry, jsStrOr, h]
  · intro h
    simp [r, normalizeScanEntry, updatedScanEntry, jsNumTruthy, h]

/-- Witness for C1 at the spec's own example (job id "1", now = 77). -/
theorem C1_merge_policy_witness :
    ([c1exStored].findIdx? (fun scan => scan.id = "1") = some 0) ∧
    ([c1exStored].get? 0 = some c1exStored) ∧
    (let r := normalizeScanEntry (updatedScanEntry c1exEvent "1" 77 (some c1exStored))
     ((updateList c1exEvent "1" 77 [c1exStored]).get? 0 = some r) ∧
     (∀ v, c1exEvent.new_files = some v → r.new_files = some v) ∧
     (c1exEvent.new_files = none → r.new_files = c1exStored.new_files) ∧
     (∀ v, c1exEvent.updated_files = some v → r.updated_files = some v) ∧
     (c1exEvent.updated_files = none → r.updated_files = c1exStored.updated_files) ∧
     (∀ v, c1exEvent.removed_files = some v → r.removed_files = some v) ∧
     (c1exEvent.removed_files = none → r.removed_files = c1exStored.removed_files) ∧
     (∀ v, c1exEvent.matched = some v → r.matched_items = some v) ∧
     (c1exEvent.matched = none → r.matched_items = c1exStored.matched_items) ∧
     (∀ v, c1exEvent.unmatched = some v → r.unmatched_files = some v) ∧
     (c1exEvent.unmatched = none → r.unmatched_files = c1exStored.unmatched_files) ∧
     (∀ v, c1exEvent.total = some v → r.total_files = some v) ∧
     (c1exEvent.total = none → c1exEvent.files = none →
       r.total_files = c1exStored.total_files) ∧
     (∀ v, c1exEvent.processed_files = some v →
       r.processed = some v ∧ r.processed_files = some v) ∧
     (c1exEvent.processed_files = none → c1exEvent.processed = none →
       ∀ q, c1exStored.processed_files = some q → r.processed = some q) ∧
     (c1exEvent.summary = none → c1exEvent.message = none →
       c1exStored.summary ≠ "" → r.summary = c1exStored.summary) ∧
     (∀ st, c1exEvent.status = some st → st ≠ "" → r.status = st) ∧
     (c1exEvent.status = none → r.status = "running") ∧
     (c1exEvent.library_id = none → r.library = none) ∧
     (((updateList c1exEvent "1" 77 [c1exStored]).get? 0).map
         (fun x => (x.total_files, x.processed, x.new_files, x.status))
       = some (some 100, some 55, some 3, "running"))) :=
  ⟨by decide, by decide,
    C1_merge_policy [c1exStored] c1exEvent "1" 77 0 c1exStored (by decide) (by decide)⟩

/-! ## Claim C5 — `finished_at` semantics -/

/-- An event carrying only `scan_id` and `status: "completed"`. -/
def c5completedEvent : ScanEvent :=
  { scan_id := some "1", library_id := none, library_name := none,
    status := some "completed", summary := none, message := none,
    matched := none, unmatched := none, total := none, files := none,
    new_files := none, updated_files := none, removed_files := none,
    processed_files := none, processed := none, media_item := none }

/-- C5 counterexample: the claim says `finished_at`, once set, is never
replaced by any later event.  But applying a second `completed` event at
time 200 to a job whose `finished_at` was set to 100 by the first
`completed` event replaces the timestamp with 200. -/
theorem C5_counterexample :
    ((updateList c5completedEvent "1" 100 []).get? 0).map (fun x => x.finished_at)
      = some (some 100) ∧
    ((updateList c5completedEvent "1" 200 (updateList c5completedEvent "1" 100 [])).get? 0).map
        (fun x => x.finished_at) = some (some 200) ∧
    some (some (200 : Nat)) ≠ some (some (100 : Nat)) := by
  refine ⟨by decide, by decide, by decide⟩

/-- C5 (amended): `finished_at` is set to "now" on every event whose own
`status` field is `"completed"` — replacing any previously recorded finish
time rather than preserving it, and regardless of whether the merged status
"transitions" — while an event with any other (or missing) status leaves the
stored `finished_at` untouched (it is never cleared). -/
theorem C5_finished_at (ev : ScanEvent) (sid : String) (now : Nat)
    (list : List ScanEntry) (i : Nat) (e : ScanEntry)
    (hfind : list.findIdx? (fun scan => scan.id = sid) = some i)
    (hget : list.get? i = some e) :
    (ev.status = some "completed" →
      ((updateList ev sid now list).get? i).map (fun x => x.finished_at)
        = some (some now)) ∧
    (ev.status ≠ some "completed" →
      ((updateList ev sid now list).get? i).map (fun x => x.finished_at)
        = some e.finished_at) := by
  have hr := updateList_get_found ev sid now list i e hfind hget
  constructor
  · intro h
    rw [hr]
    simp [normalizeScanEntry, updatedScanEntry, h]
  · intro h
    rw [hr]
    simp [normalizeScanEntry, updatedScanEntry, h]

/-- Witness for C5: a second `completed` event at time 200 on a job finished
at 100 sets `finished_at` to 200. -/
theorem C5_finished_at_witness :
    ([c1completedStored].findIdx? (fun scan => scan.id = "1") = some 0) ∧
    ([c1completedStored].get? 0 = some c1completedStored) ∧
    (c5completedEvent.status = some "completed" →
      ((updateList c5completedEvent "1" 200 [c1completedStored]).get? 0).map
          (fun x => x.finished_at) = some (some 200)) ∧
    (c5completedEvent.status ≠ some "completed" →
      ((updateList c5completedEvent "1" 200 [c1completedStored]).get? 0).map
          (fun x => x.finished_at) = some c1completedStored.finished_at) :=
  ⟨by decide, by decide,
    (C5_finished_at c5completedEvent "1" 200 [c1completedStored] 0 c1completedStored
      (by decide) (by decide)).1,
    (C5_finished_at c5completedEvent "1" 200 [c1completedStored] 0 c1completedStored
      (by decide) (by decide)).2⟩

/-! ## Claim C3 — `fetchItems` success path -/

/-- An empty starting media-library state with library 5 selected. -/
def baseMediaState : MediaLibState :=
  { items := [], loading := false, error := none, total := 0,
    activeItem := none, activeProgress := none, activeItemLoading := false,
    resumePrompt := none, selectedLibraryId := some 5,
    filters := initialFilters }

def itemAlpha : MediaItem :=
  { id := 1, library := some 5, title := "Alpha", sort_title := "alpha",
    poster_url := "p", metadata_last_synced_at := some 1,
    watch_progress := none }

def itemBeta : MediaItem :=
  { id := 2, library := some 5, title := "Beta", sort_title := "beta",
    poster_url := "p", metadata_last_synced_at := some 1,
    watch_progress := none }

/-- A response whose results arrive out of sort order. -/
def c3resp : ItemsResponse := { results := [itemBeta, itemAlpha], count := none }

/-- C3 counterexample: the claim says a successful fetch stores the results
re-sorted ascending by case-insensitive sort-title.  But `fetchItems` stores
the response results exactly as received: `[Beta, Alpha]` stays
`[Beta, Alpha]`, while the sorted order would be `[Alpha, Beta]`. -/
theorem C3_counterexample :
    (fetchItemsRun baseMediaState (some 5) (Except.ok c3resp) 0 []).1.items
      = [itemBeta, itemAlpha] ∧
    sortItems c3resp.results = [itemAlpha, itemBeta] ∧
    (fetchItemsRun baseMediaState (some 5) (Except.ok c3resp) 0 []).1.items
      ≠ sortItems c3resp.results := by
  refine ⟨by decide, by decide, by decide⟩

/-- C3 (amended): on a successful fetch with a truthy library id the item
collection is replaced by the response results in the order received (no
re-sort); the total is the envelope's `count` when truthy, else the result
length; loading ends and the error flag is cleared. -/
theorem C3_fetch_replaces (s : MediaLibState) (libraryId : Option Int)
    (l : Int) (resp : ItemsResponse) (now : Nat) (cd : CooldownMap)
    (hl : jsNumTruthy libraryId = some l) :
    ((fetchItemsRun s libraryId (Except.ok resp) now cd).1.items = resp.results) ∧
    (∀ c, resp.count = some c → c ≠ 0 →
      (fetchItemsRun s libraryId (Except.ok resp) now cd).1.total = c) ∧
    (resp.count = some 0 →
      (fetchItemsRun s libraryId (Except.ok resp) now cd).1.total
        = resp.results.length) ∧
    (resp.count = none →
      (fetchItemsRun s libraryId (Except.ok resp) now cd).1.total
        = resp.results.length) ∧
    ((fetchItemsRun s libraryId (Except.ok resp) now cd).1.loading = false) ∧
    ((fetchItemsRun s libraryId (Except.ok resp) now cd).1.error = none) := by
  refine ⟨?_, ?_, ?_, ?_, ?_, ?_⟩
  · simp [fetchItemsRun, hl]
  · intro c hc hc0
    simp [fetchItemsRun, hl, hc, hc0]
  · intro hc
    simp [fetchItemsRun, hl, hc]
  · intro hc
    simp [fetchItemsRun, hl, hc]
  · simp [fetchItemsRun, hl]
  · simp [fetchItemsRun, hl]

/-- Witness for C3 at the out-of-order response (library 5, count absent). -/
theorem C3_fetch_replaces_witness :
    (jsNumTruthy (some 5) = some 5) ∧
    (((fetchItemsRun baseMediaState (some 5) (Except.ok c3resp) 0 []).1.items
        = c3resp.results) ∧
     (∀ c, c3resp.count = some c → c ≠ 0 →
       (fetchItemsRun baseMediaState (some 5) (Except.ok c3resp) 0 []).1.total = c) ∧
     (c3resp.count = some 0 →
       (fetchItemsRun baseMediaState (some 5) (Except.ok c3resp) 0 []).1.total
         = c3resp.results.length) ∧
     (c3resp.count = none →
       (fetchItemsRun baseMediaState (some 5) (Except.ok c3resp) 0 []).1.total
         = c3resp.results.length) ∧
     ((fetchItemsRun baseMediaState (some 5) (Except.ok c3resp) 0 []).1.loading = false) ∧
     ((fetchItemsRun baseMediaState (some 5) (Except.ok c3resp) 0 []).1.error = none)) :=
  ⟨by decide,
    C3_fetch_replaces baseMediaState (some 5) 5 c3resp 0 [] (by decide)⟩

/-! ## Claim C4 — failure semantics of the three fetch paths -/

/-- A library-store state with a populated scan bucket and no error. -/
def c4libState : LibraryState :=
  { loading := false, error := none,
    scans := [("5", [c1exStored])], scansLoading := false }

/-- C4 counterexample: the claim says every such failure sets a recoverable
error flag.  A failed `fetchScans` only clears the loading flag: the store's
error flag stays `none` (and the scan buckets are untouched). -/
theorem C4_counterexample :
    fetchScansRun c4libState (some 5) (Except.error ())
      = { c4libState with scansLoading := false } ∧
    (fetchScansRun c4libState (some 5) (Except.error ())).error = none ∧
    (fetchScansRun c4libState (some 5) (Except.error ())).scans = c4libState.scans := by
  refine ⟨by decide, by decide, by decide⟩

/-- C4 (amended): no failure is fatal and previously cached collections are
preserved, but the error handling differs per path: a failed `fetchItems`
keeps the items and total, sets the error flag and issues no refresh
requests; a failed `fetchScans` keeps the scan buckets and the error flag as
they were, only clearing its loading flag; a failed `openItem` keeps the
items and the previously active item, but `activeProgress` and
`resumePrompt` have already been cleared at call start, no error flag is
set, and the rejection is propagated to the caller. -/
theorem C4_failure_semantics :
    (∀ (s : MediaLibState) (lib : Option Int) (l : Int) (now : Nat) (cd : CooldownMap),
      jsNumTruthy lib = some l →
      (fetchItemsRun s lib (Except.error ()) now cd).1.items = s.items ∧
      (fetchItemsRun s lib (Except.error ()) now cd).1.total = s.total ∧
      (fetchItemsRun s lib (Except.error ()) now cd).1.error
        = some "Failed to load media items" ∧
      (fetchItemsRun s lib (Except.error ()) now cd).1.loading = false ∧
      (fetchItemsRun s lib (Except.error ()) now cd).2.1 = cd ∧
      (fetchItemsRun s lib (Except.error ()) now cd).2.2 = []) ∧
    (∀ (st : LibraryState) (lib : Option Int),
      (fetchScansRun st lib (Except.error ())).scans = st.scans ∧
      (fetchScansRun st lib (Except.error ())).error = st.error ∧
      (fetchScansRun st lib (Except.error ())).scansLoading = false) ∧
    (∀ (s : MediaLibState) (now : Nat) (cd : CooldownMap),
      (openItemRun s (Except.error ()) now cd).1.items = s.items ∧
      (openItemRun s (Except.error ()) now cd).1.total = s.total ∧
      (openItemRun s (Except.error ()) now cd).1.activeItem = s.activeItem ∧
      (openItemRun s (Except.error ()) now cd).1.activeProgress = none ∧
      (openItemRun s (Except.error ()) now cd).1.resumePrompt = none ∧
      (openItemRun s (Except.error ()) now cd).1.activeItemLoading = false ∧
      (openItemRun s (Except.error ()) now cd).2.1 = cd ∧
      (openItemRun s (Except.error ()) now cd).2.2.1 = [] ∧
      (openItemRun s (Except.error ()) now cd).2.2.2 = Except.error ()) := by
  refine ⟨?_, ?_, ?_⟩
  · intro s lib l now cd hl
    refine ⟨?_, ?_, ?_, ?_, ?_, ?_⟩ <;> simp [fetchItemsRun, hl]
  · intro st lib
    refine ⟨?_, ?_, ?_⟩ <;> simp [fetchScansRun]
  · intro s now cd
    refine ⟨?_, ?_, ?_, ?_, ?_, ?_, ?_, ?_, ?_⟩ <;> simp [openItemRun]

/-- Witness for C4: a failed item fetch for library 5 on the base state. -/
theorem C4_failure_semantics_witness :
    (jsNumTruthy (some 5) = some 5) ∧
    ((fetchItemsRun baseMediaState (some 5) (Except.error ()) 3 []).1.items
        = baseMediaState.items ∧
      (fetchItemsRun baseMediaState (some 5) (Except.error ()) 3 []).1.total
        = baseMediaState.total ∧
      (fetchItemsRun baseMediaState (some 5) (Except.error ()) 3 []).1.error
        = some "Failed to load media items" ∧
      (fetchItemsRun baseMediaState (some 5) (Except.error ()) 3 []).1.loading = false ∧
      (fetchItemsRun baseMediaState (some 5) (Except.error ()) 3 []).2.1 = [] ∧
      (fetchItemsRun baseMediaState (some 5) (Except.error ()) 3 []).2.2 = []) :=
  ⟨by decide, C4_failure_semantics.1 baseMediaState (some 5) 5 3 [] (by decide)⟩

/-! ## Claim C6 — episode ordering -/

theorem codesLe_total : ∀ as bs : List Nat, codesLe as bs = true ∨ codesLe bs as = true := by
  intro as
  induction as with
  | nil => intro bs; left; simp [codesLe]
  | cons a as1 ih =>
    intro bs
    cases bs with
    | nil => right; simp [codesLe]
    | cons b bs1 =>
      simp only [codesLe]
      rcases lt_trichotomy a b with h | h | h
      · left; simp [h]
      · subst h
        simp only [lt_irrefl, if_false]
        exact ih bs1
      · right; simp [h]

theorem codesLe_trans :
    ∀ as bs cs : List Nat, codesLe as bs = true → codesLe bs cs = true →
      codesLe as cs = true := by
  intro as
  induction as with
  | nil => intro bs cs h1 h2; simp [codesLe]
  | cons a as1 ih =>
    intro bs cs h1 h2
    cases bs with
    | nil => simp [codesLe] at h1
    | cons b bs1 =>
      cases cs with
      | nil => simp [codesLe] at h2
      | cons c cs1 =>
        simp only [codesLe] at h1 h2 ⊢
        split_ifs at h1 h2 ⊢ <;>
          first
          | rfl
          | omega
          | exact ih bs1 cs1 h1 h2

theorem episodeLe_total (a b : Episode) : episodeLe a b = true ∨ episodeLe b a = true := by
  unfold episodeLe
  split_ifs <;> try simp
  exact codesLe_total _ _

theorem episodeLe_trans (a b c : Episode) (h1 : episodeLe a b = true)
    (h2 : episodeLe b c = true) : episodeLe a c = true := by
  unfold episodeLe at h1 h2 ⊢
  split_ifs at h1 h2 ⊢ <;>
    first
    | rfl
    | omega
    | exact codesLe_trans _ _ _ h1 h2

/-- The (2,1) episode of the spec's ordering example. -/
def epS2E1 : Episode :=
  { id := 10, season_number := some 2, episode_number := some 1,
    sort_title := "s2e1" }

/-- The (1,5) episode of the spec's ordering example. -/
def epS1E5 : Episode :=
  { id := 11, season_number := some 1, episode_number := some 5,
    sort_title := "s1e5" }

/-- The (1,1) episode of the spec's ordering example. -/
def epS1E1 : Episode :=
  { id := 12, season_number := some 1, episode_number := some 1,
    sort_title := "s1e1" }

/-- C6 counterexample: the claim says episodes with duplicate ids are
collapsed, so the example input {(2,1), (1,5), (1,1), (2,1)-duplicate-id}
would order as the three-element list [(1,1), (1,5), (2,1)].  But
`orderedEpisodes` only sorts — the duplicate id 10 entry is kept, giving a
four-element output. -/
theorem C6_counterexample :
    orderedEpisodes [epS2E1, epS1E5, epS1E1, epS2E1]
      = [epS1E1, epS1E5, epS2E1, epS2E1] ∧
    (orderedEpisodes [epS2E1, epS1E5, epS1E1, epS2E1]).length = 4 ∧
    orderedEpisodes [epS2E1, epS1E5, epS1E1, epS2E1]
      ≠ [epS1E1, epS1E5, epS2E1] := by
  refine ⟨by decide, by decide, by decide⟩

/-- C6 (amended): `orderedEpisodes` sorts by season ascending, then episode
ascending (both defaulting to 0 when missing), with the sort title (not the
display title) as final tiebreak; the output is a permutation of the input —
duplicate ids are retained, not collapsed — and is sorted under the episode
comparator; the spec's example therefore yields the four-element sequence
[(1,1), (1,5), (2,1), (2,1)]. -/
theorem C6_episode_ordering :
    (∀ l : List Episode, (orderedEpisodes l).Perm l) ∧
    (∀ l : List Episode,
      (orderedEpisodes l).Pairwise (fun a b => episodeLe a b = true)) ∧
    (orderedEpisodes [epS2E1, epS1E5, epS1E1, epS2E1]
      = [epS1E1, epS1E5, epS2E1, epS2E1]) := by
  refine ⟨?_, ?_, by decide⟩
  · intro l
    unfold orderedEpisodes
    split
    · rename_i h
      rw [List.isEmpty_iff.mp h]
    · exact jsSortBy_perm episodeLe l
  · intro l
    unfold orderedEpisodes
    split
    · exact List.Pairwise.nil
    · exact jsSortBy_pairwise episodeLe_trans episodeLe_total l

/-! ## Claim C7 — the resume guard band -/

/-- A progress record at the very start of a long file: position 0,
duration 100000 ms. -/
def c7progress : WatchProgress :=
  { id := some 1, position_ms := some 0, duration_ms := some 100000 }

/-- C7 counterexample: the claim says "resumable" holds exactly when the
duration is known and positive and more than 4% of it remains.  A record
with `position_ms = 0` satisfies that description (the whole positive
duration remains) yet `canResume` is false, because a zero position is falsy
and rejected up front. -/
theorem C7_counterexample :
    canResume (some c7progress) = false ∧ specResumable (some c7progress) = true := by
  constructor
  · simp [canResume, c7progress]
  · simp [specResumable, c7progress]
    norm_num

/-- C7 (amended): `canResume` holds exactly when the position is known and
nonzero, the duration is known and nonzero, and the remaining duration
exceeds 4% of the duration.  The spec's examples hold for nonnegative
durations: a record with position equal to duration is never resumable, one
at half the (positive) duration is resumable, and one at 97% of the
(positive) duration is not. -/
theorem C7_resume_guard :
    (∀ (p : WatchProgress) (pos dur : ℚ), p.position_ms = some pos →
      p.duration_ms = some dur →
      (canResume (some p) = true ↔
        (pos ≠ 0 ∧ dur ≠ 0 ∧ dur - pos > dur * (4 / 100)))) ∧
    (∀ d : ℚ, 0 ≤ d →
      canResume (some { id := none, position_ms := some d, duration_ms := some d })
        = false) ∧
    (∀ d : ℚ, 0 < d →
      canResume (some { id := none, position_ms := some (d / 2), duration_ms := some d })
        = true) ∧
    (∀ d : ℚ, 0 < d →
      canResume (some { id := none, position_ms := some (97 * d / 100),
                        duration_ms := some d }) = false) := by
  refine ⟨?_, ?_, ?_, ?_⟩
  · intro p pos dur hpos hdur
    simp only [canResume, hpos, hdur]
    by_cases hp0 : pos = 0
    · simp [hp0]
    · by_cases hd0 : dur = 0
      · simp [hd0]
      · simp [hp0, hd0]
  · intro d hd
    rcases eq_or_lt_of_le hd with h0 | h0
    · simp [canResume, ← h0]
    · have hne : d ≠ 0 := ne_of_gt h0
      have hq : 0 < d * (4 / 100) := by positivity
      simp only [canResume, hne, or_self, if_false]
      simp only [decide_eq_false_iff_not]
      linarith
  · intro d h0
    have hne : d ≠ 0 := ne_of_gt h0
    have hne2 : d / 2 ≠ 0 := by positivity
    simp only [canResume, hne, hne2, or_self, if_false, or_false]
    simp only [decide_eq_true_eq]
    nlinarith
  · intro d h0
    have hne : d ≠ 0 := ne_of_gt h0
    have hne97 : 97 * d / 100 ≠ 0 := by positivity
    simp only [canResume, hne, hne97, or_self, if_false, or_false]
    simp only [decide_eq_false_iff_not]
    intro hcon
    nlinarith

/-- Witness for C7: at duration 100, the half-way record is resumable. -/
theorem C7_resume_guard_witness :
    ((0 : ℚ) < 100) ∧
    canResume (some { id := none, position_ms := some ((100 : ℚ) / 2),
                      duration_ms := some (100 : ℚ) }) = true :=
  ⟨by norm_num, C7_resume_guard.2.2.1 100 (by norm_num)⟩

/-! ## Claim C8 — the cross-library upsert guard -/

/-- A cache holding item 7 under library 3 while library 5 is selected (a
state a fetch response can produce, since fetched results are stored
verbatim). -/
def c8mixedState : MediaLibState :=
  { baseMediaState with
    items := [{ id := 7, library := some 3, title := "X", sort_title := "x",
                poster_url := "p", metadata_last_synced_at := some 1,
                watch_progress := none }],
    total := 1 }

/-- An incoming update for item 7 tagged with the selected library 5 —
conflicting with the item's cached library id 3. -/
def c8incoming : MediaItem :=
  { id := 7, library := some 5, title := "Y", sort_title := "x",
    poster_url := "p", metadata_last_synced_at := some 1,
    watch_progress := none }

/-- The spec's concrete guard example: an upsert for library 2 against a
cache whose selected library is 5. -/
def c8foreign : MediaItem :=
  { id := 7, library := some 2, title := "X", sort_title := "x",
    poster_url := "p", metadata_last_synced_at := some 1,
    watch_progress := none }

/-- C8 counterexample: the claim says an upsert whose incoming library id
differs from the item's currently cached library id is rejected and the
entry left unchanged.  But the guard only compares against the selected
library: the incoming record (library 5 = selected) replaces the cached
entry (library 3), changing its library id and title. -/
theorem C8_counterexample :
    ((c8mixedState.items.get? 0).map (fun x => x.library) = some (some 3)) ∧
    c8incoming.library = some 5 ∧
    (upsertItems c8mixedState [c8incoming]).items = [c8incoming] ∧
    (((upsertItems c8mixedState [c8incoming]).items.get? 0).map (fun x => x.library)
      = some (some 5)) := by
  refine ⟨by decide, by decide, by decide, by decide⟩

/-- C8 (amended): the upsert guard compares an incoming item's truthy
library id against the currently selected library id only — the cached
entry's own library id is never consulted and can be overwritten by an
accepted upsert.  An incoming item whose truthy library id differs from the
selected library contributes nothing: the cache keeps exactly its previous
entries (re-sorted and recounted).  In particular the spec's example —
`upsert([{id: 7, library: 2, ...}])` with selected library 5 — leaves the
cache unchanged. -/
theorem C8_cross_library_guard :
    (∀ (s : MediaLibState) (sel lb : Int) (i : MediaItem),
      jsNumTruthy s.selectedLibraryId = some sel →
      jsNumTruthy i.library = some lb → lb ≠ sel →
      (upsertItems s [i]).items = sortItems ((itemsById s.items).map (fun p => p.2)) ∧
      (upsertItems s [i]).total
        = (sortItems ((itemsById s.items).map (fun p => p.2))).length) ∧
    (upsertItems baseMediaState [c8foreign] = baseMediaState) := by
  constructor
  · intro s sel lb i hsel hlib hne
    unfold upsertItems
    rw [hsel]
    simp only [List.isEmpty_cons, if_false, Bool.false_eq_true]
    by_cases hid : i.id = 0
    · simp [hid, List.foldl, itemsById]
    · simp [hid, hlib, hne, List.foldl, itemsById]
  · decide

/-- Witness for C8: on the mixed cache, an incoming item for library 2
(selected 5) is rejected and the cache keeps its single entry. -/
theorem C8_cross_library_guard_witness :
    (jsNumTruthy c8mixedState.selectedLibraryId = some 5) ∧
    (jsNumTruthy c8foreign.library = some 2) ∧
    ((2 : Int) ≠ 5) ∧
    ((upsertItems c8mixedState [c8foreign]).items
        = sortItems ((itemsById c8mixedState.items).map (fun p => p.2)) ∧
      (upsertItems c8mixedState [c8foreign]).total
        = (sortItems ((itemsById c8mixedState.items).map (fun p => p.2))).length) :=
  ⟨by decide, by decide, by decide,
    C8_cross_library_guard.1 c8mixedState 5 2 c8foreign (by decide) (by decide) (by decide)⟩

/-! ## Claim C9 — the metadata-refresh cooldown -/

theorem assocGet_assocErase_self {α β : Type} [DecidableEq α]
    (m : List (α × β)) (k : α) : assocGet (assocErase m k) k = none := by
  induction m with
  | nil => rfl
  | cons p m ih =>
    by_cases hp : p.1 = k
    · simpa [assocErase, hp] using ih
    · simpa [assocErase, assocGet, List.filter, List.find?, hp] using ih

/-- `queueMetadataRefresh` on one eligible item fires when the cooldown
window has elapsed since the recorded timestamp. -/
theorem queueOne_fires (item : MediaItem) (cd : CooldownMap) (t last : Nat)
    (hshould : shouldRefreshMetadata item = true)
    (hcd : (assocGet cd item.id).getD 0 = last)
    (ht : METADATA_REFRESH_COOLDOWN_MS ≤ (t : Int) - (last : Int)) :
    queueMetadataRefresh [item] false t cd = (assocSet cd item.id t, [item.id]) := by
  simp only [queueMetadataRefresh, List.foldl, hshould, Bool.not_true, hcd]
  rw [if_neg (by simp), if_neg (by push_neg; intro; omega)]
  simp

/-- `queueMetadataRefresh` on one eligible item is silent inside the
cooldown window. -/
theorem queueOne_skips (item : MediaItem) (cd : CooldownMap) (t last : Nat)
    (hshould : shouldRefreshMetadata item = true)
    (hcd : (assocGet cd item.id).getD 0 = last)
    (ht : (t : Int) - (last : Int) < METADATA_REFRESH_COOLDOWN_MS) :
    queueMetadataRefresh [item] false t cd = (cd, []) := by
  simp only [queueMetadataRefresh, List.foldl, hshould, Bool.not_true, hcd]
  rw [if_neg (by simp), if_pos (by constructor; simp; exact ht)]

/-- `force` bypasses the cooldown entirely. -/
theorem queueOne_forced (item : MediaItem) (cd : CooldownMap) (t : Nat)
    (hshould : shouldRefreshMetadata item = true) :
    queueMetadataRefresh [item] true t cd = (assocSet cd item.id t, [item.id]) := by
  simp only [queueMetadataRefresh, List.foldl, hshould, Bool.not_true]
  rw [if_neg (by simp), if_neg (by simp)]
  simp

/-- An item missing both poster and sync timestamp: eligible for refresh. -/
def underSynced : MediaItem :=
  { id := 42, library := some 5, title := "U", sort_title := "u",
    poster_url := "", metadata_last_synced_at := none,
    watch_progress := none }

/-- C9 counterexample: the claim attributes the cooldown-throttled refresh
requests to `upsert` calls — "a third call after 60 seconds triggers
another".  But `upsertItems` never issues a metadata-refresh request at all:
three upserts of the same under-synced item, however spaced, produce no
request (the requests come from `fetchItems`/`openItem` instead). -/
theorem C9_counterexample :
    shouldRefreshMetadata underSynced = true ∧
    (upsertItemsRun baseMediaState [underSynced] []).2.2 = [] ∧
    (upsertItemsRun (upsertItemsRun baseMediaState [underSynced] []).1 [underSynced]
        []).2.2 = [] ∧
    (upsertItemsRun
        (upsertItemsRun (upsertItemsRun baseMediaState [underSynced] []).1 [underSynced]
            []).1 [underSynced] []).2.2 = [] := by
  refine ⟨by decide, rfl, rfl, rfl⟩

/-- C9 (amended): the per-id 60-second cooldown governs the refresh requests
issued by `queueMetadataRefresh` — called on fetch and detail-open success,
not by `upsertItems`.  Two calls for the same under-synced item within 60
seconds of the first request fire at most once; a call 60 seconds or more
after the recorded request fires again; `openItem` passes `force` and
bypasses the cooldown; a failed refresh clears the id's cooldown entry; and
`upsertItems` never issues a request. -/
theorem C9_metadata_cooldown :
    (∀ (item : MediaItem) (cd : CooldownMap) (t1 t2 t3 : Nat),
      shouldRefreshMetadata item = true →
      assocGet cd item.id = none →
      METADATA_REFRESH_COOLDOWN_MS ≤ (t1 : Int) →
      (t2 : Int) - (t1 : Int) < METADATA_REFRESH_COOLDOWN_MS →
      METADATA_REFRESH_COOLDOWN_MS ≤ (t3 : Int) - (t1 : Int) →
      ((queueMetadataRefresh [item] false t1 cd).2 = [item.id]) ∧
      ((queueMetadataRefresh [item] false t2
          (queueMetadataRefresh [item] false t1 cd).1).2 = []) ∧
      ((queueMetadataRefresh [item] false t2
          (queueMetadataRefresh [item] false t1 cd).1).1
        = (queueMetadataRefresh [item] false t1 cd).1) ∧
      ((queueMetadataRefresh [item] false t3
          (queueMetadataRefresh [item] false t1 cd).1).2 = [item.id])) ∧
    (∀ (s : MediaLibState) (resp : MediaItem) (now : Nat) (cd : CooldownMap),
      shouldRefreshMetadata resp = true →
      (openItemRun s (Except.ok resp) now cd).2.2.1 = [resp.id]) ∧
    (∀ (cd : CooldownMap) (i : Int),
      assocGet (metadataRefreshFailed cd i) i = none) ∧
    (∀ (s : MediaLibState) (input : List MediaItem) (cd : CooldownMap),
      (upsertItemsRun s input cd).2.2 = []) := by
  refine ⟨?_, ?_, ?_, ?_⟩
  · intro item cd t1 t2 t3 hshould hcd ht1 ht2 ht3
    have h1 := queueOne_fires item cd t1 0 hshould (by simp [hcd]) (by omega)
    have hcd1 : (assocGet (assocSet cd item.id t1) item.id).getD 0 = t1 := by
      rw [assocGet_assocSet_self]
      rfl
    have h2 := queueOne_skips item (assocSet cd item.id t1) t2 t1 hshould hcd1 (by omega)
    have h3 := queueOne_fires item (assocSet cd item.id t1) t3 t1 hshould hcd1 (by omega)
    refine ⟨by rw [h1], ?_, ?_, ?_⟩
    · rw [h1, h2]
    · rw [h1, h2]
    · rw [h1, h3]
  · intro s resp now cd hshould
    simp [openItemRun, queueOne_forced resp cd now hshould]
  · intro cd i
    exact assocGet_assocErase_self cd i
  · intro s input cd
    rfl

/-- Witness for C9: item 42 with an empty cooldown cache, request times
60000, 90000 and 130000 ms. -/
theorem C9_metadata_cooldown_witness :
    (shouldRefreshMetadata underSynced = true) ∧
    (assocGet ([] : CooldownMap) underSynced.id = none) ∧
    (METADATA_REFRESH_COOLDOWN_MS ≤ ((60000 : Nat) : Int)) ∧
    (((90000 : Nat) : Int) - ((60000 : Nat) : Int) < METADATA_REFRESH_COOLDOWN_MS) ∧
    (METADATA_REFRESH_COOLDOWN_MS ≤ ((130000 : Nat) : Int) - ((60000 : Nat) : Int)) ∧
    (((queueMetadataRefresh [underSynced] false 60000 []).2 = [underSynced.id]) ∧
      ((queueMetadataRefresh [underSynced] false 90000
          (queueMetadataRefresh [underSynced] false 60000 []).1).2 = []) ∧
      ((queueMetadataRefresh [underSynced] false 90000
          (queueMetadataRefresh [underSynced] false 60000 []).1).1
        = (queueMetadataRefresh [underSynced] false 60000 []).1) ∧
      ((queueMetadataRefresh [underSynced] false 130000
          (queueMetadataRefresh [underSynced] false 60000 []).1).2 = [underSynced.id])) :=
  ⟨by decide, by decide, by decide, by decide, by decide,
    C9_metadata_cooldown.1 underSynced [] 60000 90000 130000 (by decide) (by decide)
      (by decide) (by decide) (by decide)⟩

/-! ## Claim C10 — `total` tracks the held item count after mutations -/

/-- A paginated response: two results of a larger filtered set of 500. -/
def c10resp : ItemsResponse := { results := [itemAlpha, itemBeta], count := some 500 }

/-- A third item for library 5. -/
def c10new : MediaItem :=
  { id := 3, library := some 5, title := "Gamma", sort_title := "gamma",
    poster_url := "p", metadata_last_synced_at := some 1,
    watch_progress := none }

/-- C10: any `upsertItems` call either leaves the state exactly as it was or
sets `total` to the number of cached items; `removeItems` always recounts;
so a server-reported envelope count (500 for a two-result page) recorded by
`fetchItems` is overwritten by the next effective upsert (here: 3, the held
item count). -/
theorem C10_total_tracks_length :
    (∀ (s : MediaLibState) (input : List MediaItem),
      upsertItems s input = s ∨
        (upsertItems s input).total = (upsertItems s input).items.length) ∧
    (∀ (s : MediaLibState) (ids : List Int),
      (removeItems s ids).total = (removeItems s ids).items.length) ∧
    ((fetchItemsRun baseMediaState (some 5) (Except.ok c10resp) 0 []).1.total = 500) ∧
    ((fetchItemsRun baseMediaState (some 5) (Except.ok c10resp) 0 []).1.items.length = 2) ∧
    ((upsertItems (fetchItemsRun baseMediaState (some 5) (Except.ok c10resp) 0 []).1
        [c10new]).total = 3) ∧
    ((upsertItems (fetchItemsRun baseMediaState (some 5) (Except.ok c10resp) 0 []).1
        [c10new]).items.length = 3) := by
  refine ⟨?_, ?_, by decide, by decide, by decide, by decide⟩
  · intro s input
    by_cases he : input.isEmpty
    · left
      simp [upsertItems, he]
    · cases hsel : jsNumTruthy s.selectedLibraryId with
      | none =>
        left
        simp [upsertItems, he, hsel]
      | some sel =>
        right
        simp [upsertItems, he, hsel]
  · intro s ids
    simp [removeItems]
